import Mathlib

/-!
Verification of the connection manager and request/response mapping of
asyncio-apns (src/asyncio_apns/apns_connection.py).

The development contains two embeddings of the code:

1. a sequential, effect-explicit embedding of the methods of
   APNsConnection (connect, disconnect, send_message and the helpers
   _prepare_request and _get_apns_id), where the transport collaborator
   is an explicit environment parameter and transport interactions are
   recorded in an event trace;

2. a labelled small-step machine modelling N tasks concurrently running
   APNsConnection.connect under the cooperative (single-threaded,
   suspension only at await points) scheduling model, used for the
   single-flight-connect claims.

The collaborator modules errors.py, h2_client.py and payload.py are not
part of the sources; their interfaces are modelled from the spec where
needed and marked as such.
-/

/-- JSON values, restricted to the shapes exchanged by this client
(strings and objects).  Used both for the encoded request body
(json.dumps in _prepare_request) and for parsed error bodies
(exc.json_data() in send_message). -/
inductive JVal
  | jstr (s : String)
  | jobj (fields : List (String × JVal))

/-- Lookup in an association list of string keys, modelling Python
dict.get (first matching key; dict keys are unique in Python, so first
match is the match). -/
def dictGet : List (String × String) → String → Option String
  | [], _ => none
  | (k, v) :: rest, key => if key = k then some v else dictGet rest key

/-- Lookup of a field in a parsed JSON object body, modelling
error_data.get("reason") in send_message. -/
def jGet : List (String × JVal) → String → Option JVal
  | [], _ => none
  | (k, v) :: rest, key => if key = k then some v else jGet rest key

/-- JSON string escaping (quote and backslash), the part of Python's
json.dumps escaping exercised by this client's payloads. -/
def escapeJson (s : String) : String :=
  String.mk (s.data.foldr (fun c acc =>
    if c = '"' then '\\' :: '"' :: acc
    else if c = '\\' then '\\' :: '\\' :: acc
    else c :: acc) [])

mutual

/-- Serialization of a JSON value, modelling Python's
json.dumps(payload.as_dict()) with its default separators
(", " between members and ": " after a key). -/
def jsonDumps : JVal → String
  | JVal.jstr s => "\"" ++ escapeJson s ++ "\""
  | JVal.jobj fields => "\x7b" ++ jsonDumpsFields fields ++ "\x7d"

/-- Serialization of the member list of a JSON object. -/
def jsonDumpsFields : List (String × JVal) → String
  | [] => ""
  | [(k, v)] => "\"" ++ escapeJson k ++ "\": " ++ jsonDumps v
  | (k, v) :: rest =>
      "\"" ++ escapeJson k ++ "\": " ++ jsonDumps v ++ ", " ++ jsonDumpsFields rest

end

/-- NotificationPriority from apns_connection.py: a two-valued enum. -/
inductive NotificationPriority
  | Immediate
  | Delayed
deriving DecidableEq

/-- The numeric value of each priority (Immediate = 10, Delayed = 5),
the .value attribute of the Python enum. -/
def NotificationPriority.value : NotificationPriority → Nat
  | NotificationPriority.Immediate => 10
  | NotificationPriority.Delayed => 5

/-- Modelled from the spec: payload.py is not under src.  The spec treats
the payload as "an opaque payload object that serializes to a canonical
encoded body", so a Payload is carried by the dictionary it serializes
to (its as_dict view). -/
structure Payload where
  as_dict : JVal

/-- Modelled from the spec: the Payload(str) constructor used by
_prepare_request to wrap "a bare string input ... into the canonical
payload shape" (the aps/alert object). -/
def Payload.ofString (s : String) : Payload :=
  Payload.mk (JVal.jobj [("aps", JVal.jobj [("alert", JVal.jstr s)])])

/-- The Union[Payload, str] argument type of _prepare_request and
send_message. -/
inductive PayloadArg
  | obj (p : Payload)
  | strArg (s : String)

/-- The isinstance(payload, Payload) normalization at the top of
_prepare_request: a bare string is wrapped via the Payload constructor,
a Payload is used as is. -/
def normalizePayload : PayloadArg → Payload
  | PayloadArg.obj p => p
  | PayloadArg.strArg s => Payload.ofString s

/-- _get_apns_id from apns_connection.py: headers.get("apns-id"). -/
def get_apns_id (headers : List (String × String)) : Option String :=
  dictGet headers "apns-id"

/-- Modelled from the spec: h2_client.py is not under src.  The spec
describes two distinct transport fault kinds, a rejection fault
(HTTP2Error: "has headers + optional structured body") and a
disconnection fault (DisconnectError: "has optional structured body"),
"both expose an accessor to parse their body as structured data"
(json_data(), here the already-parsed Option result: none when the body
is missing or unparseable), plus unclassified faults that this core
does not understand. -/
inductive TransportFault
  | http2 (headers : List (String × String)) (jsonData : Option (List (String × JVal)))
  | disconnected (jsonData : Option (List (String × JVal)))
  | otherFault (code : Nat)

/-- The reason extraction shared by both except-branches of
send_message: error_data = exc.json_data(); reason = None; if
error_data is not None: reason = error_data.get("reason"). -/
def reasonOf (jsonData : Option (List (String × JVal))) : Option JVal :=
  match jsonData with
  | none => none
  | some d => jGet d "reason"

/-- Exceptions that can escape the embedded methods.  apnsError and
apnsDisconnectError model the two domain errors of errors.py (not under
src; modelled from the spec as a Rejection error carrying an optional
reason and an optional notification identifier, and a Disconnection
error carrying an optional reason only).  uncaught carries a transport
fault that no except-branch of send_message catches.  attributeError
models Python's AttributeError from dereferencing None. -/
inductive PyExc
  | apnsError (reason : Option JVal) (apnsId : Option String)
  | apnsDisconnectError (reason : Option JVal)
  | uncaught (f : TransportFault)
  | attributeError
  | connectError (e : Nat)

/-- The transport session object (H2ClientProtocol instance, h2_client.py
not under src).  Only the parts apns_connection.py reads are modelled:
the connected health flag; sid distinguishes distinct sessions. -/
structure H2Protocol where
  connected : Bool
  sid : Nat
deriving DecidableEq

/-- The mutable state of an APNsConnection instance that the claims
concern: the protocol reference (None or a session) and the
_connection_coro pending-attempt slot (None or present). -/
structure APNsConnection where
  protocol : Option H2Protocol
  connection_coro : Option Unit
deriving DecidableEq

/-- The connected property: self.protocol is not None and
self.protocol.connected. -/
def APNsConnection.connected (st : APNsConnection) : Bool :=
  match st.protocol with
  | some p => p.connected
  | none => false

/-- Transport-facing events of a sequential run: a handshake attempt
started (H2ClientProtocol.connect called by _do_connect) and a request
issued through the session (protocol.send_request). -/
inductive SEvent
  | handshake
  | requestSent (headers : List (String × String)) (body : String)

/-- Environment of a sequential connect call: the outcome of the
handshake _do_connect awaits (a session or a failure code), and the
outcome observed when awaiting an attempt that is already pending. -/
structure ConnectEnv where
  doConnectResult : Except Nat H2Protocol
  pendingOutcome : Except Nat Unit

/-- Sequential embedding of APNsConnection.connect.  If connected,
return immediately.  Otherwise, if _connection_coro is set, await it
and return (the awaiting caller itself mutates nothing).  Otherwise
install the attempt, run _do_connect (one handshake; on success it
assigns self.protocol), and clear _connection_coro in the finally
block on both exits. -/
def APNsConnection.connect (env : ConnectEnv) (st : APNsConnection) :
    Except Nat Unit × APNsConnection × List SEvent :=
  if st.connected then (Except.ok (), st, [])
  else
    match st.connection_coro with
    | some _ => (env.pendingOutcome, st, [])
    | none =>
        match env.doConnectResult with
        | Except.ok sess =>
            (Except.ok (), { protocol := some sess, connection_coro := none },
             [SEvent.handshake])
        | Except.error e =>
            (Except.error e, { st with connection_coro := none },
             [SEvent.handshake])

/-- APNsConnection.disconnect: self.protocol.disconnect() followed by
self.protocol = None.  When self.protocol is None the attribute access
on None raises AttributeError. -/
def APNsConnection.disconnect (st : APNsConnection) :
    Except PyExc APNsConnection :=
  match st.protocol with
  | none => Except.error PyExc.attributeError
  | some _ => Except.ok { st with protocol := none }

/-- APNsConnection._prepare_request: normalize the payload, encode
json.dumps(payload.as_dict()).encode(), and build the ordered
pseudo-header list; content-length is the byte length of the encoded
data (str(len(data)) on UTF-8 encoded bytes). -/
def prepare_request (payload : PayloadArg) (token : String) :
    List (String × String) × String :=
  let p := normalizePayload payload
  let data := jsonDumps p.as_dict
  ([(":method", "POST"), (":scheme", "https"),
    (":path", "/3/device/" ++ token),
    ("content-length", toString data.utf8ByteSize)], data)

/-- The header list send_message passes to protocol.send_request:
_prepare_request's headers with ("apns-priority", str(prioriy.value))
appended, then ("apns-topic", topic) appended when a topic is given. -/
def buildHeaders (payload : PayloadArg) (token : String)
    (prioriy : NotificationPriority) (topic : Option String) :
    List (String × String) :=
  let headers1 := (prepare_request payload token).1 ++
    [("apns-priority", toString prioriy.value)]
  match topic with
  | some t => headers1 ++ [("apns-topic", t)]
  | none => headers1

/-- Environment of a sequential send_message call: the connect
environment (used only when not connected) and the transport's response
to protocol.send_request(headers, data): response headers and body, or
a transport fault. -/
structure SendEnv where
  connectEnv : ConnectEnv
  sendResult : List (String × String) → String →
    Except TransportFault (List (String × String) × String)

/-- Sequential embedding of APNsConnection.send_message.  If not
connected, await self.connect() first (a connect failure propagates and
no request is issued).  Build the request, issue it through
self.protocol (AttributeError if the protocol reference is None), and
on success return _get_apns_id of the response headers.  An HTTP2Error
is mapped to APNsError(reason, _get_apns_id(exc.headers)); a
DisconnectError is mapped to APNsDisconnectError(reason); any other
fault propagates uncaught. -/
def send_message (env : SendEnv) (st : APNsConnection) (payload : PayloadArg)
    (token : String) (prioriy : NotificationPriority) (topic : Option String) :
    Except PyExc (Option String) × APNsConnection × List SEvent :=
  let step1 : Except Nat Unit × APNsConnection × List SEvent :=
    if st.connected then (Except.ok (), st, [])
    else APNsConnection.connect env.connectEnv st
  match step1 with
  | (Except.error e, st1, tr) => (Except.error (PyExc.connectError e), st1, tr)
  | (Except.ok _, st1, tr) =>
    let headers := buildHeaders payload token prioriy topic
    let data := (prepare_request payload token).2
    match st1.protocol with
    | none => (Except.error PyExc.attributeError, st1, tr)
    | some _ =>
      let tr2 := tr ++ [SEvent.requestSent headers data]
      match env.sendResult headers data with
      | Except.ok (respHeaders, _) => (Except.ok (get_apns_id respHeaders), st1, tr2)
      | Except.error (TransportFault.http2 fh fb) =>
          (Except.error (PyExc.apnsError (reasonOf fb) (get_apns_id fh)), st1, tr2)
      | Except.error (TransportFault.disconnected fb) =>
          (Except.error (PyExc.apnsDisconnectError (reasonOf fb)), st1, tr2)
      | Except.error (TransportFault.otherFault c) =>
          (Except.error (PyExc.uncaught (TransportFault.otherFault c)), st1, tr2)

/-!
The concurrent model of APNsConnection.connect.  N tasks each run one
connect() call under asyncio's cooperative scheduling: a task runs
atomically between await points.  connect() has one initial atomic
segment (the connected check, the _connection_coro check, and — for the
first caller — installing _connection_coro and starting the handshake
inside _do_connect), then suspends.  The handshake's resolution resumes
the owner's segment (assign self.protocol on success, clear
_connection_coro in the finally block, return or raise); a task that
awaited an already-pending attempt resumes afterwards and returns with
the attempt's outcome.
-/

/-- Outcome of a connection attempt: success, failure with an error, or
cancellation of the awaiting task (the finally block runs in all
three). -/
inductive COutcome
  | ok
  | fail (code : Nat)
  | cancelled
deriving DecidableEq

/-- Status of one task running connect(): not yet scheduled, owner of
attempt a (it installed _connection_coro and started the handshake),
joiner of attempt a (it observed _connection_coro set and awaits it), or
completed with an outcome. -/
inductive TStatus
  | pending
  | owner (a : Nat)
  | joiner (a : Nat)
  | done (o : COutcome)
deriving DecidableEq

/-- Global state of the concurrent-connect machine: the manager's
protocol reference (modelled by its health flag) and _connection_coro
slot holding the id of the pending attempt, the task list, a counter of
attempt ids, the list of handshakes currently in flight, the resolved
attempts with their outcomes, and the trace of started handshakes. -/
structure MState where
  protocol : Option Bool
  coro : Option Nat
  tasks : List TStatus
  attempts : Nat
  inflight : List Nat
  results : List (Nat × COutcome)
  trace : List Nat
deriving DecidableEq

/-- The connected property in the machine. -/
def connectedM (s : MState) : Bool :=
  match s.protocol with
  | some h => h
  | none => false

/-- Lookup of a resolved attempt's outcome. -/
def lookupRes : Nat → List (Nat × COutcome) → Option COutcome
  | _, [] => none
  | a, (b, o) :: rest => if a = b then some o else lookupRes a rest

/-- Transition labels: a task runs the initial segment of connect(), a
handshake resolves (resuming the owner task), or a joiner task resumes
after its attempt resolved. -/
inductive CLabel
  | start (i : Nat)
  | resolve (a : Nat) (o : COutcome) (i : Nat)
  | finishJoin (i : Nat)
deriving DecidableEq

/-- One step of the machine.

startNoop: the initial segment when self.connected is true — return
immediately, touching nothing.

startJoin: the initial segment when not connected and _connection_coro
is set — the task awaits the pending attempt.

startOwn: the initial segment when not connected and _connection_coro
is None — install the attempt in _connection_coro and start the
handshake (_do_connect runs to its await).

resolveStep: an in-flight handshake resolves with outcome o and the
owner task's resumed segment runs: on success self.protocol is
assigned the new session, the finally block clears _connection_coro in
every case, and the owner completes with o.

finishJoinStep: a joiner of a resolved attempt resumes and completes
with the attempt's outcome. -/
inductive CStep : MState → CLabel → MState → Prop
  | startNoop (s : MState) (i : Nat) :
      s.tasks.get? i = some TStatus.pending →
      connectedM s = true →
      CStep s (CLabel.start i) { s with tasks := s.tasks.set i (TStatus.done COutcome.ok) }
  | startJoin (s : MState) (i : Nat) (a : Nat) :
      s.tasks.get? i = some TStatus.pending →
      connectedM s = false →
      s.coro = some a →
      CStep s (CLabel.start i) { s with tasks := s.tasks.set i (TStatus.joiner a) }
  | startOwn (s : MState) (i : Nat) :
      s.tasks.get? i = some TStatus.pending →
      connectedM s = false →
      s.coro = none →
      CStep s (CLabel.start i)
        { s with coro := some s.attempts,
                 attempts := s.attempts + 1,
                 inflight := s.inflight ++ [s.attempts],
                 tasks := s.tasks.set i (TStatus.owner s.attempts),
                 trace := s.trace ++ [s.attempts] }
  | resolveStep (s : MState) (a : Nat) (o : COutcome) (i : Nat) :
      a ∈ s.inflight →
      s.tasks.get? i = some (TStatus.owner a) →
      CStep s (CLabel.resolve a o i)
        { s with inflight := s.inflight.erase a,
                 results := (a, o) :: s.results,
                 coro := none,
                 protocol := match o with
                   | COutcome.ok => some true
                   | _ => s.protocol,
                 tasks := s.tasks.set i (TStatus.done o) }
  | finishJoinStep (s : MState) (i : Nat) (a : Nat) (o : COutcome) :
      s.tasks.get? i = some (TStatus.joiner a) →
      lookupRes a s.results = some o →
      CStep s (CLabel.finishJoin i) { s with tasks := s.tasks.set i (TStatus.done o) }

/-- A labelled run of the machine. -/
inductive CRun : MState → List CLabel → MState → Prop
  | nil (s : MState) : CRun s [] s
  | cons (s : MState) (l : CLabel) (s1 : MState) (ls : List CLabel) (s2 : MState) :
      CStep s l s1 → CRun s1 ls s2 → CRun s (l :: ls) s2

/-- Initial state for n concurrent connect() calls on a disconnected
manager: no protocol, no pending attempt, n unscheduled tasks. -/
def initState (n : Nat) : MState :=
  { protocol := none, coro := none, tasks := List.replicate n TStatus.pending,
    attempts := 0, inflight := [], results := [], trace := [] }

/-- Whether a label is a task's initial connect segment. -/
def isStartL : CLabel → Bool
  | CLabel.start _ => true
  | _ => false

/-- Whether a label is a handshake resolution. -/
def isResolveL : CLabel → Bool
  | CLabel.resolve _ _ _ => true
  | _ => false

/-- The schedule shape meaning the n connect() calls are concurrent:
every call's initial segment runs before any handshake resolution is
delivered (asyncio runs already-queued task steps before the completion
callback of a later I/O event). -/
def nsarB : List CLabel → Bool
  | [] => true
  | l :: ls => (!(isResolveL l) || ls.all (fun m => !(isStartL m))) && nsarB ls

/-- All tasks have completed their connect() call. -/
def allDoneB (ts : List TStatus) : Bool :=
  ts.all fun t => match t with
    | TStatus.done _ => true
    | _ => false

/-- Bookkeeping invariant of the machine, preserved by every step of
every schedule: the task count is fixed, at most one handshake is in
flight, and a handshake can only be in flight while _connection_coro is
set. -/
def InvG (n : Nat) (s : MState) : Prop :=
  s.tasks.length = n ∧ s.inflight.length ≤ 1 ∧ (s.coro = none → s.inflight = [])

/-- A list of length at most one containing a is exactly [a]. -/
theorem eq_singleton_of_len_le_one {l : List Nat} {a : Nat}
    (hlen : l.length ≤ 1) (hmem : a ∈ l) : l = [a] := by
  match l with
  | [] => cases hmem
  | [x] => simp at hmem; simp [hmem]
  | x :: y :: ys => simp at hlen

/-- The bookkeeping invariant is preserved by every step. -/
theorem invG_step {n : Nat} {s : MState} {l : CLabel} {s' : MState}
    (hstep : CStep s l s') (hinv : InvG n s) : InvG n s' := by
  obtain ⟨hlen, hfl, hcoro⟩ := hinv
  cases hstep with
  | startNoop i h1 h2 =>
      exact ⟨by simp [List.length_set, hlen], hfl, hcoro⟩
  | startJoin i a h1 h2 h3 =>
      exact ⟨by simp [List.length_set, hlen], hfl, hcoro⟩
  | startOwn i h1 h2 h3 =>
      refine ⟨by simp [List.length_set, hlen], ?_, ?_⟩
      · simp [hcoro h3]
      · intro h; simp at h
  | resolveStep a o i h1 h2 =>
      refine ⟨by simp [List.length_set, hlen], ?_, ?_⟩
      · rw [eq_singleton_of_len_le_one hfl h1]
        simp [List.erase_cons_head]
      · intro _
        rw [eq_singleton_of_len_le_one hfl h1]
        simp [List.erase_cons_head]
  | finishJoinStep i a o h1 h2 =>
      exact ⟨by simp [List.length_set, hlen], hfl, hcoro⟩

/-- The bookkeeping invariant holds at every state a run reaches. -/
theorem invG_run {n : Nat} {s : MState} {ls : List CLabel} {s' : MState}
    (hrun : CRun s ls s') (hinv : InvG n s) : InvG n s' := by
  induction hrun with
  | nil s => exact hinv
  | cons s l s1 ls s2 hstep _ ih => exact ih (invG_step hstep hinv)

/-- Phase invariant before any handshake has resolved: the manager is
still disconnected, no outcome has been recorded, and either no task has
run yet (no attempt exists) or the first caller has installed attempt 0
and every other scheduled task joined it. -/
def InvPre (n : Nat) (s : MState) : Prop :=
  s.protocol = none ∧ s.results = [] ∧ s.tasks.length = n ∧
  ((s.attempts = 0 ∧ s.coro = none ∧ s.inflight = [] ∧ s.trace = [] ∧
      ∀ t ∈ s.tasks, t = TStatus.pending) ∨
   (s.attempts = 1 ∧ s.coro = some 0 ∧ s.inflight = [0] ∧ s.trace = [0] ∧
      ∀ t ∈ s.tasks, t = TStatus.pending ∨ t = TStatus.owner 0 ∨ t = TStatus.joiner 0))

/-- Phase invariant after the single attempt resolved with outcome o:
the pending slot is cleared, attempt 0 is the only recorded attempt, the
trace holds its single handshake, and every task either still awaits its
resumption or completed with o. -/
def InvPost (n : Nat) (o : COutcome) (s : MState) : Prop :=
  s.coro = none ∧ s.inflight = [] ∧ s.results = [(0, o)] ∧ s.trace = [0] ∧
  s.tasks.length = n ∧
  ∀ t ∈ s.tasks, t = TStatus.pending ∨ t = TStatus.owner 0 ∨ t = TStatus.joiner 0 ∨
    t = TStatus.done o

/-- After resolution, a step that is not an initial connect segment
preserves the post-resolution invariant. -/
theorem invPost_step {n : Nat} {o : COutcome} {s : MState} {l : CLabel} {s' : MState}
    (hstep : CStep s l s') (hl : isStartL l = false) (hinv : InvPost n o s) :
    InvPost n o s' := by
  obtain ⟨hcoro, hfl, hres, htr, hlen, htasks⟩ := hinv
  cases hstep with
  | startNoop i h1 h2 => simp [isStartL] at hl
  | startJoin i a h1 h2 h3 => simp [isStartL] at hl
  | startOwn i h1 h2 h3 => simp [isStartL] at hl
  | resolveStep a o2 i h1 h2 =>
      rw [hfl] at h1
      cases h1
  | finishJoinStep i a o2 h1 h2 =>
      refine ⟨hcoro, hfl, hres, htr, by simp [List.length_set, hlen], ?_⟩
      intro t ht
      rcases List.mem_or_eq_of_mem_set ht with hmem | heq
      · exact htasks t hmem
      · have hjoin : TStatus.joiner a ∈ s.tasks := List.get?_mem h1
        have ha : a = 0 := by
          rcases htasks _ hjoin with h | h | h | h <;> simp_all
        rw [hres, ha] at h2
        simp [lookupRes] at h2
        right; right; right
        rw [heq, h2]

/-- After resolution, a run containing no initial connect segments
preserves the post-resolution invariant. -/
theorem invPost_run {n : Nat} {o : COutcome} {s : MState} {ls : List CLabel} {s' : MState}
    (hrun : CRun s ls s') (hls : ∀ l ∈ ls, isStartL l = false) (hinv : InvPost n o s) :
    InvPost n o s' := by
  induction hrun with
  | nil s => exact hinv
  | cons s l s1 ls s2 hstep _ ih =>
      exact ih (fun m hm => hls m (List.mem_cons_of_mem l hm))
        (invPost_step hstep (hls l (List.mem_cons_self l ls)) hinv)

/-- Under a concurrent schedule (no initial segment after a resolution),
a run from a pre-resolution state ends in a pre- or post-resolution
state. -/
theorem invPre_run {n : Nat} {s : MState} {ls : List CLabel} {s' : MState}
    (hrun : CRun s ls s') (hns : nsarB ls = true) (hinv : InvPre n s) :
    InvPre n s' ∨ ∃ o, InvPost n o s' := by
  induction hrun with
  | nil s => exact Or.inl hinv
  | cons s l s1 ls s2 hstep hrun1 ih =>
    have hns2 : nsarB ls = true := by
      simp only [nsarB, Bool.and_eq_true] at hns
      exact hns.2
    obtain ⟨hprot, hres, hlen, hbranch⟩ := hinv
    cases hstep with
    | startNoop i h1 h2 =>
        rw [connectedM, hprot] at h2
        cases h2
    | startJoin i a h1 h2 h3 =>
        rcases hbranch with ⟨ha0, hc, hf, ht, htsk⟩ | ⟨ha1, hc, hf, ht, htsk⟩
        · rw [hc] at h3
          cases h3
        · have ha : a = 0 := by
            rw [hc] at h3
            exact (Option.some.inj h3).symm
          apply ih hns2
          refine ⟨hprot, hres, by simp [List.length_set, hlen], Or.inr ⟨ha1, hc, hf, ht, ?_⟩⟩
          intro t htm
          rcases List.mem_or_eq_of_mem_set htm with hmem | heq
          · exact htsk t hmem
          · right; right
            rw [heq, ha]
    | startOwn i h1 h2 h3 =>
        rcases hbranch with ⟨ha0, hc, hf, ht, htsk⟩ | ⟨ha1, hc, hf, ht, htsk⟩
        · apply ih hns2
          refine ⟨hprot, hres, by simp [List.length_set, hlen],
            Or.inr ⟨by simp [ha0], by simp [ha0], by simp [hf, ha0], by simp [ht, ha0], ?_⟩⟩
          intro t htm
          rcases List.mem_or_eq_of_mem_set htm with hmem | heq
          · left; exact htsk t hmem
          · right; left
            rw [heq, ha0]
        · rw [hc] at h3
          cases h3
    | resolveStep a o i h1 h2 =>
        rcases hbranch with ⟨ha0, hc, hf, ht, htsk⟩ | ⟨ha1, hc, hf, ht, htsk⟩
        · rw [hf] at h1
          cases h1
        · have ha : a = 0 := by
            rw [hf] at h1
            simpa using h1
          have hstarts : ∀ m ∈ ls, isStartL m = false := by
            simp only [nsarB, isResolveL, Bool.not_true, Bool.false_or,
              Bool.and_eq_true] at hns
            intro m hm
            have := (List.all_eq_true.mp hns.1) m hm
            simpa using this
          refine Or.inr ⟨o, invPost_run hrun1 hstarts ?_⟩
          refine ⟨rfl, ?_, ?_, ht, by simp [List.length_set, hlen], ?_⟩
          · rw [hf, ha]
            simp [List.erase_cons_head]
          · rw [hres, ha]
          · intro t htm
            rcases List.mem_or_eq_of_mem_set htm with hmem | heq
            · rcases htsk t hmem with h | h | h
              · left; exact h
              · right; left; exact h
              · right; right; left; exact h
            · right; right; right; exact heq
    | finishJoinStep i a o h1 h2 =>
        rw [hres] at h2
        simp [lookupRes] at h2

/-- C1: for every set of N concurrent connect() calls made while the
manager is disconnected, exactly one underlying transport handshake
attempt is started (the trace holds the single handshake of attempt 0),
all N calls complete with the same outcome, and no two handshakes are
ever in flight concurrently (at every reachable state at most one
handshake is in flight, over arbitrary schedules). -/
theorem single_flight_connect (n : Nat) (ls : List CLabel) (s' : MState)
    (hrun : CRun (initState n) ls s') :
    s'.inflight.length ≤ 1 ∧
    (nsarB ls = true → allDoneB s'.tasks = true → 0 < n →
      s'.trace = [0] ∧ ∃ o, ∀ t ∈ s'.tasks, t = TStatus.done o) := by
  have hinvG : InvG n s' :=
    invG_run hrun ⟨by simp [initState], by simp [initState], by simp [initState]⟩
  refine ⟨hinvG.2.1, ?_⟩
  intro hns hdone hn
  have hpre : InvPre n (initState n) :=
    ⟨rfl, rfl, by simp [initState],
     Or.inl ⟨rfl, rfl, rfl, rfl, fun t ht => List.eq_of_mem_replicate ht⟩⟩
  rcases invPre_run hrun hns hpre with hpre2 | ⟨o, hpost⟩
  · obtain ⟨_, _, hlen, hbranch⟩ := hpre2
    have hpos : 0 < s'.tasks.length := by rw [hlen]; exact hn
    obtain ⟨t, htm⟩ := List.exists_mem_of_ne_nil _ (List.ne_nil_of_length_pos hpos)
    have hd := List.all_eq_true.mp hdone t htm
    rcases hbranch with ⟨_, _, _, _, htsk⟩ | ⟨_, _, _, _, htsk⟩
    · rw [htsk t htm] at hd
      simp at hd
    · rcases htsk t htm with h | h | h <;> (rw [h] at hd; simp at hd)
  · obtain ⟨_, _, _, htr, _, htsk⟩ := hpost
    refine ⟨htr, o, ?_⟩
    intro t htm
    have hd := List.all_eq_true.mp hdone t htm
    rcases htsk t htm with h | h | h | h
    · rw [h] at hd; simp at hd
    · rw [h] at hd; simp at hd
    · rw [h] at hd; simp at hd
    · exact h

/-- A concrete concurrent schedule for two connect() calls: both initial
segments run, the handshake resolves successfully, the joiner resumes. -/
def c1Labels : List CLabel :=
  [CLabel.start 0, CLabel.start 1, CLabel.resolve 0 COutcome.ok 0, CLabel.finishJoin 1]

/-- The state that schedule reaches. -/
def c1Final : MState :=
  { protocol := some true, coro := none,
    tasks := [TStatus.done COutcome.ok, TStatus.done COutcome.ok],
    attempts := 1, inflight := [], results := [(0, COutcome.ok)], trace := [0] }

/-- Witness for C1 on a concrete two-task run. -/
theorem single_flight_connect_witness :
    CRun (initState 2) c1Labels c1Final ∧
    c1Final.inflight.length ≤ 1 ∧ c1Final.trace = [0] ∧
    c1Final.tasks = [TStatus.done COutcome.ok, TStatus.done COutcome.ok] := by
  have hrun : CRun (initState 2) c1Labels c1Final := by
    refine CRun.cons _ _ _ _ _ (CStep.startOwn _ 0 (by decide) (by decide) (by decide)) ?_
    refine CRun.cons _ _ _ _ _ (CStep.startJoin _ 1 0 (by decide) (by decide) (by decide)) ?_
    refine CRun.cons _ _ _ _ _ (CStep.resolveStep _ 0 COutcome.ok 0 (by decide) (by decide)) ?_
    refine CRun.cons _ _ _ _ _ (CStep.finishJoinStep _ 1 0 COutcome.ok (by decide) (by decide)) ?_
    exact CRun.nil _
  have h := single_flight_connect 2 c1Labels c1Final hrun
  exact ⟨hrun, h.1, (h.2 (by decide) (by decide) (by decide)).1, rfl⟩

/-- C4: for every manager state in which a transport session exists and
reports itself healthy, connect() returns immediately as a no-op: it
succeeds, leaves the state unchanged, and emits no transport event. -/
theorem idempotent_connect (env : ConnectEnv) (st : APNsConnection)
    (h : st.connected = true) :
    APNsConnection.connect env st = (Except.ok (), st, []) := by
  simp [APNsConnection.connect, h]

/-- Witness for C4 at a concrete connected state. -/
theorem idempotent_connect_witness :
    APNsConnection.connect (ConnectEnv.mk (Except.error 7) (Except.error 7))
      (APNsConnection.mk (some (H2Protocol.mk true 0)) none) =
    (Except.ok (), APNsConnection.mk (some (H2Protocol.mk true 0)) none, []) :=
  idempotent_connect _ _ rfl

/-- C6: every resolution of a started connection attempt — success,
failure, or cancellation — runs the owner's finally block and clears the
pending _connection_coro slot. -/
theorem connect_clears_pending (s : MState) (a : Nat) (o : COutcome) (i : Nat)
    (s' : MState) (hstep : CStep s (CLabel.resolve a o i) s') : s'.coro = none := by
  cases hstep
  rfl

/-- A state with one in-flight attempt owned by the only task. -/
def c6Before : MState :=
  { protocol := none, coro := some 0, tasks := [TStatus.owner 0],
    attempts := 1, inflight := [0], results := [], trace := [0] }

/-- The state after that attempt is cancelled. -/
def c6After : MState :=
  { protocol := none, coro := none, tasks := [TStatus.done COutcome.cancelled],
    attempts := 1, inflight := [], results := [(0, COutcome.cancelled)], trace := [0] }

/-- Witness for C6 at a concrete cancelled attempt. -/
theorem connect_clears_pending_witness :
    CStep c6Before (CLabel.resolve 0 COutcome.cancelled 0) c6After ∧ c6After.coro = none := by
  have hstep : CStep c6Before (CLabel.resolve 0 COutcome.cancelled 0) c6After := by
    have h := CStep.resolveStep c6Before 0 COutcome.cancelled 0 (by decide) (by decide)
    exact h
  exact ⟨hstep, connect_clears_pending _ _ _ _ _ hstep⟩

/-- C10: when no transport session exists, disconnect() dereferences the
absent session (self.protocol.disconnect() on None) and raises
AttributeError instead of returning as a no-op. -/
theorem disconnect_requires_session (st : APNsConnection) (h : st.protocol = none) :
    APNsConnection.disconnect st = Except.error PyExc.attributeError := by
  simp [APNsConnection.disconnect, h]

/-- Witness for C10 at the fresh (never connected) state. -/
theorem disconnect_requires_session_witness :
    APNsConnection.disconnect (APNsConnection.mk none none) =
      Except.error PyExc.attributeError :=
  disconnect_requires_session _ rfl

/-- C3: for every payload and token, a send with default priority and no
topic builds exactly the ordered headers :method=POST, :scheme=https,
:path=/3/device/token, content-length = byte length of the encoded body
(computed from the actual encoding, which is also the body sent),
followed by apns-priority = 10; no apns-topic header appears; and a bare
string payload is wrapped into the canonical payload shape before
encoding. -/
theorem request_shape (payload : PayloadArg) (token : String) :
    buildHeaders payload token NotificationPriority.Immediate none =
      [(":method", "POST"), (":scheme", "https"),
       (":path", "/3/device/" ++ token),
       ("content-length",
         toString (jsonDumps (normalizePayload payload).as_dict).utf8ByteSize),
       ("apns-priority", "10")] ∧
    (∀ v, ("apns-topic", v) ∈
        buildHeaders payload token NotificationPriority.Immediate none → False) ∧
    (prepare_request payload token).2 = jsonDumps (normalizePayload payload).as_dict ∧
    (∀ s, (prepare_request (PayloadArg.strArg s) token).2 =
        jsonDumps (Payload.ofString s).as_dict) := by
  have h10 : toString 10 = "10" := rfl
  refine ⟨by simp [buildHeaders, prepare_request, NotificationPriority.value, h10], ?_, rfl, ?_⟩
  · intro v hv
    simp [buildHeaders, prepare_request, NotificationPriority.value] at hv
  · intro s
    rfl

/-- A connected manager holds a session. -/
theorem protocol_of_connected {st : APNsConnection} (hc : st.connected = true) :
    ∃ p, st.protocol = some p := by
  unfold APNsConnection.connected at hc
  cases hpp : st.protocol with
  | none => rw [hpp] at hc; cases hc
  | some p => exact ⟨p, rfl⟩

/-- C2: every rejection-kind transport fault caught during send raises
the Rejection error whose reason is the "reason" field of the fault's
parsed body when that body is present and parseable (reasonOf returns
none when json_data is none, i.e. body missing or unparseable), and
whose identifier is the "apns-id" header of the fault's headers when
present (get_apns_id returns none otherwise). -/
theorem rejection_mapping (env : SendEnv) (st : APNsConnection) (payload : PayloadArg)
    (token : String) (pr : NotificationPriority) (topic : Option String)
    (fh : List (String × String)) (fb : Option (List (String × JVal)))
    (hc : st.connected = true)
    (hs : ∀ h d, env.sendResult h d = Except.error (TransportFault.http2 fh fb)) :
    (send_message env st payload token pr topic).1 =
      Except.error (PyExc.apnsError (reasonOf fb) (get_apns_id fh)) := by
  obtain ⟨p, hp⟩ := protocol_of_connected hc
  simp [send_message, hc, hp, hs]

/-- Witness for C2: body reason BadDeviceToken, header apns-id abc123. -/
theorem rejection_mapping_witness :
    (send_message
      (SendEnv.mk (ConnectEnv.mk (Except.error 7) (Except.error 7))
        (fun _ _ => Except.error (TransportFault.http2 [("apns-id", "abc123")]
          (some [("reason", JVal.jstr "BadDeviceToken")]))))
      (APNsConnection.mk (some (H2Protocol.mk true 0)) none)
      (PayloadArg.strArg "hello") "deviceA" NotificationPriority.Immediate none).1 =
    Except.error (PyExc.apnsError (some (JVal.jstr "BadDeviceToken")) (some "abc123")) :=
  (rejection_mapping
    (SendEnv.mk (ConnectEnv.mk (Except.error 7) (Except.error 7))
      (fun _ _ => Except.error (TransportFault.http2 [("apns-id", "abc123")]
        (some [("reason", JVal.jstr "BadDeviceToken")]))))
    (APNsConnection.mk (some (H2Protocol.mk true 0)) none)
    (PayloadArg.strArg "hello") "deviceA" NotificationPriority.Immediate none
    [("apns-id", "abc123")] (some [("reason", JVal.jstr "BadDeviceToken")])
    rfl (fun _ _ => rfl)).trans rfl

/-- C7: every disconnection-kind transport fault caught during send
raises the Disconnection error whose reason is the "reason" field of the
fault's parsed body when present (none otherwise); the error carries no
notification identifier (the constructor has no identifier field). -/
theorem disconnection_mapping (env : SendEnv) (st : APNsConnection) (payload : PayloadArg)
    (token : String) (pr : NotificationPriority) (topic : Option String)
    (fb : Option (List (String × JVal)))
    (hc : st.connected = true)
    (hs : ∀ h d, env.sendResult h d = Except.error (TransportFault.disconnected fb)) :
    (send_message env st payload token pr topic).1 =
      Except.error (PyExc.apnsDisconnectError (reasonOf fb)) := by
  obtain ⟨p, hp⟩ := protocol_of_connected hc
  simp [send_message, hc, hp, hs]

/-- Witness for C7: body reason InternalServerError. -/
theorem disconnection_mapping_witness :
    (send_message
      (SendEnv.mk (ConnectEnv.mk (Except.error 7) (Except.error 7))
        (fun _ _ => Except.error (TransportFault.disconnected
          (some [("reason", JVal.jstr "InternalServerError")]))))
      (APNsConnection.mk (some (H2Protocol.mk true 0)) none)
      (PayloadArg.strArg "hello") "deviceA" NotificationPriority.Immediate none).1 =
    Except.error (PyExc.apnsDisconnectError (some (JVal.jstr "InternalServerError"))) :=
  (disconnection_mapping
    (SendEnv.mk (ConnectEnv.mk (Except.error 7) (Except.error 7))
      (fun _ _ => Except.error (TransportFault.disconnected
        (some [("reason", JVal.jstr "InternalServerError")]))))
    (APNsConnection.mk (some (H2Protocol.mk true 0)) none)
    (PayloadArg.strArg "hello") "deviceA" NotificationPriority.Immediate none
    (some [("reason", JVal.jstr "InternalServerError")])
    rfl (fun _ _ => rfl)).trans rfl

/-- C8: a transport fault that is neither a rejection fault nor a
disconnection fault is not caught by send_message: it propagates
unchanged, not coerced into either domain error. -/
theorem unclassified_fault_propagates (env : SendEnv) (st : APNsConnection)
    (payload : PayloadArg) (token : String) (pr : NotificationPriority)
    (topic : Option String) (c : Nat)
    (hc : st.connected = true)
    (hs : ∀ h d, env.sendResult h d = Except.error (TransportFault.otherFault c)) :
    (send_message env st payload token pr topic).1 =
      Except.error (PyExc.uncaught (TransportFault.otherFault c)) := by
  obtain ⟨p, hp⟩ := protocol_of_connected hc
  simp [send_message, hc, hp, hs]

/-- Witness for C8 at a concrete unclassified fault. -/
theorem unclassified_fault_propagates_witness :
    (send_message
      (SendEnv.mk (ConnectEnv.mk (Except.error 7) (Except.error 7))
        (fun _ _ => Except.error (TransportFault.otherFault 42)))
      (APNsConnection.mk (some (H2Protocol.mk true 0)) none)
      (PayloadArg.strArg "hello") "deviceA" NotificationPriority.Immediate none).1 =
    Except.error (PyExc.uncaught (TransportFault.otherFault 42)) :=
  unclassified_fault_propagates _ _ _ _ _ _ _ rfl (fun _ _ => rfl)

/-- C9: a send that fails with a transport fault leaves the manager's
session reference unchanged: the protocol field after the failed send
equals the one before. -/
theorem failed_send_preserves_session (env : SendEnv) (st : APNsConnection)
    (payload : PayloadArg) (token : String) (pr : NotificationPriority)
    (topic : Option String) (f : TransportFault)
    (hc : st.connected = true)
    (hs : ∀ h d, env.sendResult h d = Except.error f) :
    (send_message env st payload token pr topic).2.1.protocol = st.protocol := by
  obtain ⟨p, hp⟩ := protocol_of_connected hc
  cases f with
  | http2 fh fb => simp [send_message, hc, hp, hs]
  | disconnected fb => simp [send_message, hc, hp, hs]
  | otherFault c => simp [send_message, hc, hp, hs]

/-- Witness for C9 at a concrete rejected send. -/
theorem failed_send_preserves_session_witness :
    (send_message
      (SendEnv.mk (ConnectEnv.mk (Except.error 7) (Except.error 7))
        (fun _ _ => Except.error (TransportFault.http2 [] none)))
      (APNsConnection.mk (some (H2Protocol.mk true 3)) none)
      (PayloadArg.strArg "hello") "deviceA" NotificationPriority.Immediate none).2.1.protocol =
    some (H2Protocol.mk true 3) :=
  failed_send_preserves_session _ _ _ _ _ _ _ rfl (fun _ _ => rfl)

/-- C5: a send() on a disconnected manager (with no attempt already
pending) performs exactly one connect — the trace starts with the single
handshake and contains no other — before any request is issued. -/
theorem lazy_connect_on_send (env : SendEnv) (st : APNsConnection)
    (payload : PayloadArg) (token : String) (pr : NotificationPriority)
    (topic : Option String)
    (h1 : st.connected = false) (h2 : st.connection_coro = none) :
    ∃ rest, (send_message env st payload token pr topic).2.2 =
        SEvent.handshake :: rest ∧ SEvent.handshake ∉ rest := by
  cases hdo : env.connectEnv.doConnectResult with
  | error e =>
      refine ⟨[], ?_, by simp⟩
      simp [send_message, APNsConnection.connect, h1, h2, hdo]
  | ok sess =>
      cases hres : env.sendResult (buildHeaders payload token pr topic)
          (prepare_request payload token).2 with
      | ok r =>
          refine ⟨[SEvent.requestSent (buildHeaders payload token pr topic)
            (prepare_request payload token).2], ?_, by simp⟩
          simp [send_message, APNsConnection.connect, h1, h2, hdo, hres]
      | error f =>
          refine ⟨[SEvent.requestSent (buildHeaders payload token pr topic)
            (prepare_request payload token).2], ?_, by simp⟩
          cases f with
          | http2 fh fb => simp [send_message, APNsConnection.connect, h1, h2, hdo, hres]
          | disconnected fb => simp [send_message, APNsConnection.connect, h1, h2, hdo, hres]
          | otherFault c => simp [send_message, APNsConnection.connect, h1, h2, hdo, hres]

/-- Witness for C5 at a concrete disconnected state with a successful
connect and send. -/
theorem lazy_connect_on_send_witness :
    (APNsConnection.mk (none : Option H2Protocol) none).connected = false ∧
    ∃ rest, (send_message
      (SendEnv.mk (ConnectEnv.mk (Except.ok (H2Protocol.mk true 0)) (Except.error 7))
        (fun _ _ => Except.ok ([("apns-id", "abc123")], "")))
      (APNsConnection.mk none none)
      (PayloadArg.strArg "hello") "deviceA" NotificationPriority.Immediate none).2.2 =
        SEvent.handshake :: rest ∧ SEvent.handshake ∉ rest :=
  ⟨rfl, lazy_connect_on_send _ _ _ _ _ _ rfl rfl⟩

/-- Witness for C3: payload "hello" to token "deviceA" yields path
/3/device/deviceA, apns-priority 10, no topic header, and a
content-length of 27 matching the encoded body. -/
theorem request_shape_witness :
    buildHeaders (PayloadArg.strArg "hello") "deviceA" NotificationPriority.Immediate none =
      [(":method", "POST"), (":scheme", "https"), (":path", "/3/device/deviceA"),
       ("content-length", "27"), ("apns-priority", "10")] ∧
    (prepare_request (PayloadArg.strArg "hello") "deviceA").2 =
      "\x7b\"aps\": \x7b\"alert\": \"hello\"\x7d\x7d" :=
  ⟨((request_shape (PayloadArg.strArg "hello") "deviceA").1).trans rfl, rfl⟩
